import Mathlib

/-!
Verification of the data pipeline and interaction callback of the
bubble-chart dashboard `app_opcion2.py`.

The script loads a wide table, reshapes it into a long table (one row per
article x populated outcome tier), aggregates by
(level-1, level-2, outcome_type, outcome_name), maps mean scores to
categorical labels, builds hierarchical axis keys, and answers bubble
clicks by re-parsing the synthetic keys and filtering the long table.

Modelling conventions:
* Python strings are Lean `String`s; character-level operations work on
  `String.toList`.
* Numeric scores (floats in the source) are modelled as `ℚ`; a missing
  value (`NaN`) is `Option.none`.
* A pandas DataFrame is modelled as a column-name list plus a list of
  rows, each row a total function from column name to cell value
  (`Val.na` models `NaN`). A long-table row is abstracted by the
  structure `LongRow` holding the six columns the aggregation and the
  click callback read.
* Python `s.split(sep, 1)` (split at the first occurrence of `sep`) is
  `splitOnceL` / `splitOnce`; when `sep` does not occur, where Python
  tuple unpacking would raise `ValueError`, the model returns `none`.
-/

namespace AppOpcion2

/-- A pandas cell: missing (`NaN`), a string, or a number. -/
inductive Val where
  | na : Val
  | str : String → Val
  | num : ℚ → Val
deriving DecidableEq

/-! ## Column-name constants (lines 12-34 of the source) -/

def COL_L1 : String := "INTERVENTION_Level 1_One Health Capability"

def COL_L2 : String := "INTERVENTION_Level 2"

def COL_INT_OUT : String := "INTERMEDIATE OUTCOME_Classification (dropdown)\n"

def COL_FIN_OUT : String := "OUTCOME_Classification (dropdown)\n\n"

def COL_INT_STRENGTH : String := "_strength"

def COL_FIN_STRENGTH : String := "_strength_final"

def COL_INT_SIGN : String := "_sign"

def COL_FIN_SIGN : String := "_sign_final"

def COL_IMP_OUT : String := "IMPACT_Classification (dropdown)\nAMR burden reduced = Impact"

def COL_IMP_STRENGTH : String := "_strength_impact"

def COL_IMP_SIGN : String := "_sign_impact"

def COL_IMP_TEXT : String := "IMPACT TEXT (verbatim)"

def COL_TITLE : String := "Title​ \n(213 articles)"

def COL_YEAR : String := "Publication Year​"

def COL_GEOG : String := "Geography​_Location"

def COL_INT_TEXT : String := "INTERMEDIATE OUTCOME TEXT (verbatim)"

def COL_INTERV_TEXT : String := "INTERVENTION TEXT (verbatim)\n"

def COL_OUT_TEXT : String := "OUTCOME TEXT (verbatim)"

/-! ## Synthetic-key constants (lines 98-101) -/

def HDR_PREFIX_Y : String := "__HDR__"

def ROW_PREFIX_Y : String := "__ROW__"

def HDR_PREFIX_X : String := "__XHDR__"

def COL_PREFIX_X : String := "__XCOL__"

/-- The literal separator " || " used in the synthetic keys. -/
def SEP : String := " || "

/-- Character form of the separator. -/
def SEPL : List Char := [' ', '|', '|', ' ']

/-! ## Character-level string utilities -/

/-- Python `s.split(sep, 1)` when `sep` occurs in `s`: the parts before and
after the first occurrence of `sep`; `none` when `sep` does not occur
(there Python tuple unpacking raises). -/
def splitOnceL (sep : List Char) : List Char → Option (List Char × List Char)
  | [] => none
  | c :: cs =>
    if sep.isPrefixOf (c :: cs) then some ([], (c :: cs).drop sep.length)
    else
      match splitOnceL sep cs with
      | some p => some (c :: p.1, p.2)
      | none => none

/-- String wrapper for `splitOnceL`. -/
def splitOnce (sep s : String) : Option (String × String) :=
  (splitOnceL sep.toList s.toList).map fun p => (String.mk p.1, String.mk p.2)

/-- Python `s.startswith(pre)`. -/
def startsWithB (pre s : String) : Bool := pre.toList.isPrefixOf s.toList

/-! ## Long-table rows and synthetic keys -/

/-- One row of the long-form table, restricted to the six columns read by
the aggregation (line 89) and the click callback (lines 363-366). -/
structure LongRow where
  l1 : String
  l2 : String
  outcome_type : String
  outcome_name : String
  strength : Option ℚ
  sign : Option ℚ
deriving DecidableEq

/-- Line 147: `agg["y_key"] = ROW_PREFIX_Y + L1 + " || " + L2`. -/
def y_key (l1 l2 : String) : String := ROW_PREFIX_Y ++ l1 ++ SEP ++ l2

/-- Line 167: `agg["x_key"] = COL_PREFIX_X + outcome_type + " || " + outcome_name`. -/
def x_key (t nm : String) : String := COL_PREFIX_X ++ t ++ SEP ++ nm

/-- Lines 356-357: `_, rest = x_key.split(COL_PREFIX_X, 1)` then
`outcome_type, outcome_name = rest.split(" || ", 1)`. -/
def parse_x (s : String) : Option (String × String) :=
  match splitOnce COL_PREFIX_X s with
  | none => none
  | some p => splitOnce SEP p.2

/-- Lines 360-361: `_, rest_y = y_key.split(ROW_PREFIX_Y, 1)` then
`l1, l2 = rest_y.split(" || ", 1)`. -/
def parse_y (s : String) : Option (String × String) :=
  match splitOnce ROW_PREFIX_Y s with
  | none => none
  | some p => splitOnce SEP p.2

/-! ## Aggregation (lines 89-93) -/

abbrev GroupKey := String × String × String × String

def keyOf (r : LongRow) : GroupKey := (r.l1, r.l2, r.outcome_type, r.outcome_name)

/-- First-seen deduplication, as pandas `Series.unique`. -/
def firstSeenAux {α : Type} [DecidableEq α] (seen : List α) : List α → List α
  | [] => []
  | a :: rest =>
    if a ∈ seen then firstSeenAux seen rest else a :: firstSeenAux (a :: seen) rest

def firstSeen {α : Type} [DecidableEq α] (l : List α) : List α := firstSeenAux [] l

/-- pandas column mean: skips missing values; mean of an all-missing
column is `NaN`, modelled as `none`. -/
def meanOpt (xs : List ℚ) : Option ℚ :=
  if xs.length = 0 then none else some (xs.sum / xs.length)

/-- One row of the aggregate table. -/
structure AggRow where
  l1 : String
  l2 : String
  outcome_type : String
  outcome_name : String
  n : ℕ
  mean_strength : Option ℚ
  mean_direction : Option ℚ
deriving DecidableEq

def keyOfAgg (a : AggRow) : GroupKey := (a.l1, a.l2, a.outcome_type, a.outcome_name)

/-- Lines 89-93: group the long table by
(L1, L2, outcome_type, outcome_name) and take the group size and the
column means of `strength` and `sign`. (pandas emits groups in sorted key
order; no claim depends on the row order of the aggregate, so the model
emits them in first-seen order.) -/
def agg (rows : List LongRow) : List AggRow :=
  (firstSeen (rows.map keyOf)).map fun k =>
    let g := rows.filter fun r => keyOf r == k
    { l1 := k.1, l2 := k.2.1, outcome_type := k.2.2.1, outcome_name := k.2.2.2,
      n := g.length,
      mean_strength := meanOpt (g.filterMap (·.strength)),
      mean_direction := meanOpt (g.filterMap (·.sign)) }

/-! ## Label mappings (lines 121-135) -/

/-- Lines 121-127. Total: every non-missing value gets a label. -/
def map_strength_label (x : Option ℚ) : String :=
  match x with
  | none => "N/A"
  | some x =>
    if x ≥ 26/10 then "high"
    else if x ≥ 24/10 then "moderate"
    else if x ≥ 15/10 then "low-moderate"
    else if x ≥ 1 then "low"
    else "very low"

/-- Lines 129-135. The Python function has no `else` branch: a value
matching none of the guards falls through and the function returns
`None`; that fall-through is modelled by the result `none`. -/
def map_direction_label (x : Option ℚ) : Option String :=
  match x with
  | none => some "N/A"
  | some x =>
    if x = 1 then some "positive"
    else if 1/2 < x ∧ x < 1 then some "mostly positive"
    else if -(1/2) < x ∧ x ≤ 1/2 then some "inconclusive/mixed"
    else if -1 < x ∧ x ≤ -(1/2) then some "mostly negative"
    else if x = -1 then some "negative"
    else none

/-! ## Y-axis group order (lines 143-145) and level-2 sort key (116-118) -/

/-- Line 144: `str(l).lower().startswith("surveillance")`. `Char.toLower`
lowercases ASCII letters, which covers the test literal. -/
def isSurv (l : String) : Bool :=
  startsWithB "surveillance" (String.mk (l.toList.map Char.toLower))

/-- Lines 143-145: first-seen distinct level-1 values of the aggregate
table, reordered so that names starting with "surveillance" (any case)
come first, each block keeping its relative order. (Line 143 also drops
missing level-1 values; keys are total strings in the model.) -/
def unique_l1 (rows : List AggRow) : List String :=
  let u := firstSeen (rows.map (·.l1))
  u.filter isSurv ++ u.filter fun l => !isSurv l

/-- Digit-string to number, as Python `int` on a digit group. -/
def digitsToNat (ds : List Char) : ℕ :=
  ds.foldl (fun a c => 10 * a + (c.toNat - 48)) 0

/-- The regex match of line 117: optional leading whitespace, one or more
digits, then a literal '.' or ')'. Returns the digit group's value. -/
def numPrefix? (cs : List Char) : Option ℕ :=
  let rest := cs.dropWhile Char.isWhitespace
  match rest.takeWhile Char.isDigit, rest.dropWhile Char.isDigit with
  | [], _ => none
  | _ :: _, [] => none
  | d :: ds, c :: _ =>
    if c = '.' ∨ c = ')' then some (digitsToNat (d :: ds)) else none

/-- Lines 116-118: numeric sort key for a level-2 label; 9999 when the
regex does not match. -/
def l2_num_prefix (s : String) : ℕ :=
  match numPrefix? s.toList with
  | some k => k
  | none => 9999

/-- Sort order used at line 156: ascending comparison of the numeric keys. -/
def l2Le (a b : String) : Prop := l2_num_prefix a ≤ l2_num_prefix b

instance : DecidableRel l2Le := fun a b => Nat.decLe ( l2_num_prefix a) ( l2_num_prefix b)

instance : IsTotal String l2Le := ⟨fun _ _ => Nat.le_total _ _⟩

instance : IsTrans String l2Le := ⟨fun _ _ _ hab hbc => Nat.le_trans hab hbc⟩

/-- Line 156: `grp.sort_values(by=COL_L2, key=...map(l2_num_prefix))`,
an ascending sort of the level-2 labels by their numeric key. -/
def sortL2 (ls : List String) : List String := List.insertionSort l2Le ls

/-! ## Wide-table model and long-form construction (lines 51-84) -/

/-- A pandas DataFrame: ordered column names plus rows; each row is read
through a total function, `Val.na` standing for a missing cell. -/
structure DF where
  cols : List String
  rows : List (String → Val)

/-- Lines 51-54. -/
def keep_base : List String :=
  [COL_L1, COL_L2, COL_TITLE, COL_YEAR, COL_GEOG,
   COL_INT_TEXT, COL_INTERV_TEXT, COL_OUT_TEXT, COL_IMP_TEXT]

/-- Line 55: `[c for c in keep_base if c in df.columns]`. -/
def cols_keep (df : DF) : List String := keep_base.filter fun c => df.cols.contains c

/-- Column selection `df[cs]` (the source only selects columns it has
checked are present; selection of an absent column, which raises in
pandas, is outside every claim). -/
def selectCols (df : DF) (cs : List String) : DF := ⟨cs, df.rows⟩

/-- `df.dropna(subset=subset, how="any")`: keep a row iff every subset
column is non-missing. -/
def dropnaSubset (df : DF) (subset : List String) : DF :=
  ⟨df.cols, df.rows.filter fun r => subset.all fun c => r c != Val.na⟩

/-- `df.assign(name=f)`: append the column (if new) and set its value on
every row. -/
def DF.assignCol (df : DF) (nm : String) (f : (String → Val) → Val) : DF :=
  ⟨df.cols ++ (if df.cols.contains nm then [] else [nm]),
   df.rows.map fun r c => if c = nm then f r else r c⟩

/-- The shared shape of lines 58-63, 66-71 and 75-80: select the kept base
columns plus the tier's three columns, drop rows missing L1, L2 or the
tier's outcome, then assign outcome_type / outcome_name / strength / sign. -/
def tierLong (df : DF) (outCol sCol gCol tLabel : String) : DF :=
  ((((dropnaSubset (selectCols df (cols_keep df ++ [outCol, sCol, gCol]))
        [COL_L1, COL_L2, outCol]).assignCol "outcome_type" fun _ => Val.str tLabel
     ).assignCol "outcome_name" fun r => r outCol
    ).assignCol "strength" fun r => r sCol
   ).assignCol "sign" fun r => r gCol

/-- Lines 58-63. -/
def int_long (df : DF) : DF :=
  tierLong df COL_INT_OUT COL_INT_STRENGTH COL_INT_SIGN "Intermediate Outcomes"

/-- Lines 66-71. -/
def fin_long (df : DF) : DF :=
  tierLong df COL_FIN_OUT COL_FIN_STRENGTH COL_FIN_SIGN "Final Outcomes"

/-- Lines 74-82: the impact tier, or — when any of its three source
columns is absent — an empty frame with the intermediate tier's columns
(`pd.DataFrame(columns=int_long.columns)`). -/
def imp_long (df : DF) : DF :=
  if (df.cols.contains COL_IMP_OUT && df.cols.contains COL_IMP_STRENGTH &&
      df.cols.contains COL_IMP_SIGN) = true then
    tierLong df COL_IMP_OUT COL_IMP_STRENGTH COL_IMP_SIGN "Impact"
  else ⟨(int_long df).cols, []⟩

/-- Reading a row of a frame: a column the frame does not carry is `NaN`. -/
def padRow (cs : List String) (r : String → Val) : String → Val :=
  fun c => if cs.contains c then r c else Val.na

/-- `pd.concat(..., ignore_index=True)`: columns are the first-seen union,
rows are concatenated, absent columns filled with `NaN`. -/
def concatDF (ds : List DF) : DF :=
  ⟨firstSeen (ds.map DF.cols).flatten,
   (ds.map fun d => d.rows.map (padRow d.cols)).flatten⟩

/-- Line 84: `long = pd.concat([int_long, fin_long, imp_long], ignore_index=True)`. -/
def longDF (df : DF) : DF := concatDF [int_long df, fin_long df, imp_long df]

/-! ## Bubble sizing (lines 195-200, 235-236) -/

/-- Line 198. -/
def desired_max_px : ℚ := 48

/-- Line 199: `max_n = max(1, agg["n"].max())`. -/
def max_n (rows : List AggRow) : ℕ := max 1 ((rows.map (·.n)).foldr max 0)

/-- Line 200: `sizeref = 2.0 * max_n / (desired_max_px ** 2)`. -/
def sizeref (rows : List AggRow) : ℚ := 2 * (max_n rows : ℚ) / desired_max_px ^ 2

/-- The marker configuration set at lines 235-236. -/
structure Marker where
  sizemode : String
  sizeref : ℚ
  sizemin : ℚ
deriving DecidableEq

/-- Line 236: `marker=dict(..., sizemode="area", sizeref=sizeref, sizemin=4)`. -/
def figMarker (rows : List AggRow) : Marker := ⟨"area", sizeref rows, 4⟩

/-! ## The click callback (lines 345-380) -/

/-- Line 379's f-string. -/
def detailTitle (t nm l1 l2 : String) (k : ℕ) : String :=
  t ++ " — \"" ++ nm ++ "\"  |  " ++ l1 ++ " → " ++ l2 ++ "  |  " ++
    toString k ++ " articles"

/-- The conjunction of the four equality tests of lines 363-366. -/
def matchesKeys (l1 l2 t nm : String) (r : LongRow) : Bool :=
  r.l1 == l1 && r.l2 == l2 && r.outcome_type == t && r.outcome_name == nm

/-- Lines 345-380. `clickData` is `none` for an absent/falsy click state,
`some (x, y)` for a clicked point's coordinates. A `none` result models
the `ValueError` Python would raise when a key passes the startswith
guard but lacks the " || " separator; the records are the matching long
rows (the column projection of lines 369-380 keeps one output row per
matching long row). -/
def show_details (long : List LongRow) (clickData : Option (String × String)) :
    Option (List LongRow × String) :=
  match clickData with
  | none => some ([], "Click a bubble to see the article list.")
  | some (xk, yk) =>
    if startsWithB COL_PREFIX_X xk && startsWithB ROW_PREFIX_Y yk then
      match parse_x xk, parse_y yk with
      | some t_n, some l1_l2 =>
        let sub := long.filter (matchesKeys l1_l2.1 l1_l2.2 t_n.1 t_n.2)
        some (sub, detailTitle t_n.1 t_n.2 l1_l2.1 l1_l2.2 sub.length)
      | _, _ => none
    else
      some ([], "Select a bubble (row Level 2 × outcome) to see details.")

/-! ## Separator-occurrence predicates used by the round-trip claim -/

/-- The field contains the literal separator " || ". -/
def containsSep (s : String) : Prop := SEPL <:+: s.toList

/-- The field ends with " ||" — the separator's own overlap: gluing " || "
after such a field creates an occurrence of " || " one position early. -/
def sepBreak (s : String) : Prop := [' ', '|', '|'] <:+ s.toList

instance (s : String) : Decidable (containsSep s) :=
  inferInstanceAs (Decidable (SEPL <:+: s.toList))

instance (s : String) : Decidable (sepBreak s) :=
  inferInstanceAs (Decidable ([' ', '|', '|'] <:+ s.toList))

/-! ## Helper lemmas on split-once -/

/-- Splitting at a separator the string begins with strips exactly that
separator. -/
theorem splitOnceL_self (sep r : List Char) (h : sep ≠ []) :
    splitOnceL sep (sep ++ r) = some ([], r) := by
  match sep, h with
  | c :: cs, _ =>
    have hb : (c :: cs).isPrefixOf ((c :: cs) ++ r) = true := by
      rw [List.isPrefixOf_iff_prefix]
      exact List.prefix_append _ _
    have hd : ((c :: cs) ++ r).drop (c :: cs).length = r := List.drop_left _ _
    simp only [List.cons_append] at hb hd ⊢
    simp [splitOnceL, hb, hd]

/-- When the first field contains no occurrence of " || " and does not end
with " ||", the first occurrence of " || " in `a ++ " || " ++ b` is the
glued-in one, so split-once recovers the two fields. -/
theorem splitOnceL_no_early (a b : List Char)
    (h1 : ¬ SEPL <:+: a) (h2 : ¬ [' ', '|', '|'] <:+ a) :
    splitOnceL SEPL (a ++ (SEPL ++ b)) = some (a, b) := by
  induction a with
  | nil => simpa using splitOnceL_self SEPL b (by decide)
  | cons c t ih =>
    have ht1 : ¬ SEPL <:+: t := fun h => h1 (List.infix_cons h)
    have ht2 : ¬ [' ', '|', '|'] <:+ t := fun h => h2 (h.trans (List.suffix_cons c t))
    have hnp : SEPL.isPrefixOf (c :: (t ++ (SEPL ++ b))) = false := by
      rw [Bool.eq_false_iff]
      intro hb
      rw [List.isPrefixOf_iff_prefix] at hb
      match t, hb with
      | [], hb =>
        obtain ⟨u, hu⟩ := hb
        simp [SEPL] at hu
      | [d], hb =>
        obtain ⟨u, hu⟩ := hb
        simp [SEPL] at hu
      | [d, e], hb =>
        obtain ⟨u, hu⟩ := hb
        simp [SEPL] at hu
        exact h2 (by rw [← hu.1, ← hu.2.1, ← hu.2.2.1])
      | d :: e :: f :: rest, hb =>
        have hcons : c :: (d :: e :: f :: rest ++ (SEPL ++ b)) =
            (c :: d :: e :: f :: rest) ++ (SEPL ++ b) := by simp
        rw [hcons] at hb
        have hpre4 : SEPL <+: c :: d :: e :: f :: rest :=
          List.prefix_of_prefix_length_le hb (List.prefix_append _ _) (by simp [SEPL])
        exact h1 hpre4.isInfix
    have hcond : ¬ (SEPL.isPrefixOf (c :: (t ++ (SEPL ++ b))) = true) := by
      simp [hnp]
    have hstep : splitOnceL SEPL ((c :: t) ++ (SEPL ++ b)) =
        match splitOnceL SEPL (t ++ (SEPL ++ b)) with
        | some p => some (c :: p.1, p.2)
        | none => none := by
      simp only [List.cons_append, splitOnceL, List.append_eq]
      rw [if_neg hcond]
    rw [hstep, ih ht1 ht2]

/-- Character decomposition of a synthetic key. -/
theorem key_toList (pre a b : String) :
    (pre ++ a ++ SEP ++ b).toList = pre.toList ++ (a.toList ++ (SEPL ++ b.toList)) := by
  have h : SEP.toList = SEPL := by decide
  show pre.toList ++ a.toList ++ SEP.toList ++ b.toList = _
  rw [h, List.append_assoc, List.append_assoc]

/-- The resolver's X-key parse inverts the X-key builder, given the
separator-freedom conditions. -/
theorem parse_x_roundtrip (t nm : String) (h1 : ¬ containsSep t) (h2 : ¬ sepBreak t) :
    parse_x (x_key t nm) = some (t, nm) := by
  have e0 : (x_key t nm).toList =
      COL_PREFIX_X.toList ++ (t.toList ++ (SEPL ++ nm.toList)) :=
    key_toList COL_PREFIX_X t nm
  have e1 : splitOnce COL_PREFIX_X (x_key t nm) =
      some ("", String.mk (t.toList ++ (SEPL ++ nm.toList))) := by
    unfold splitOnce
    rw [e0, splitOnceL_self _ _ (by decide)]
    rfl
  have e2 : splitOnce SEP (String.mk (t.toList ++ (SEPL ++ nm.toList))) = some (t, nm) := by
    unfold splitOnce
    have hS : SEP.toList = SEPL := by decide
    show (splitOnceL SEP.toList (t.toList ++ (SEPL ++ nm.toList))).map _ = _
    rw [hS, splitOnceL_no_early t.toList nm.toList h1 h2]
    rfl
  unfold parse_x
  rw [e1]
  exact e2

/-- The resolver's Y-key parse inverts the Y-key builder, given the
separator-freedom conditions. -/
theorem parse_y_roundtrip (l1 l2 : String) (h1 : ¬ containsSep l1) (h2 : ¬ sepBreak l1) :
    parse_y (y_key l1 l2) = some (l1, l2) := by
  have e0 : (y_key l1 l2).toList =
      ROW_PREFIX_Y.toList ++ (l1.toList ++ (SEPL ++ l2.toList)) :=
    key_toList ROW_PREFIX_Y l1 l2
  have e1 : splitOnce ROW_PREFIX_Y (y_key l1 l2) =
      some ("", String.mk (l1.toList ++ (SEPL ++ l2.toList))) := by
    unfold splitOnce
    rw [e0, splitOnceL_self _ _ (by decide)]
    rfl
  have e2 : splitOnce SEP (String.mk (l1.toList ++ (SEPL ++ l2.toList))) = some (l1, l2) := by
    unfold splitOnce
    have hS : SEP.toList = SEPL := by decide
    show (splitOnceL SEP.toList (l1.toList ++ (SEPL ++ l2.toList))).map _ = _
    rw [hS, splitOnceL_no_early l1.toList l2.toList h1 h2]
    rfl
  unfold parse_y
  rw [e1]
  exact e2

/-- C1 (amended): the resolver's parse (strip the registered key marker,
then split once on " || ") inverts the axis-key builders on every
(outcome_type, outcome_name) and (level-1, level-2) pair, provided no
field contains " || " and additionally the first field of the pair does
not end with " ||". -/
theorem C1_axis_key_roundtrip :
    (∀ t nm : String, ¬ containsSep t → ¬ containsSep nm → ¬ sepBreak t →
        parse_x (x_key t nm) = some (t, nm)) ∧
    (∀ l1 l2 : String, ¬ containsSep l1 → ¬ containsSep l2 → ¬ sepBreak l1 →
        parse_y (y_key l1 l2) = some (l1, l2)) := by
  constructor
  · intro t nm h1 _ h3
    exact parse_x_roundtrip t nm h1 h3
  · intro l1 l2 h1 _ h3
    exact parse_y_roundtrip l1 l2 h1 h3

/-- C1 counterexample to the claim as stated: the fields "A ||" and "B"
contain no occurrence of " || ", yet the parse of the Y key built from
them recovers ("A", "|| B"), not ("A ||", "B") — the trailing " ||" of
the first field glues with the appended separator into an earlier
occurrence of " || ". -/
theorem C1_axis_key_roundtrip_cex :
    ¬ containsSep "A ||" ∧ ¬ containsSep "B" ∧
    parse_y (y_key "A ||" "B") = some ("A", "|| B") ∧
    parse_y (y_key "A ||" "B") ≠ some ("A ||", "B") :=
  ⟨by decide, by decide, by decide, by decide⟩

/-- C1 witness: the amended round-trip at a concrete pair of pairs. -/
theorem C1_axis_key_roundtrip_witness :
    parse_x (x_key "Final Outcomes" "Reduced AMR incidence") =
      some ("Final Outcomes", "Reduced AMR incidence") ∧
    parse_y (y_key "Surveillance systems" "2. Data sharing") =
      some ("Surveillance systems", "2. Data sharing") :=
  ⟨C1_axis_key_roundtrip.1 "Final Outcomes" "Reduced AMR incidence"
      (by decide) (by decide) (by decide),
   C1_axis_key_roundtrip.2 "Surveillance systems" "2. Data sharing"
      (by decide) (by decide) (by decide)⟩

/-- C2: every aggregate row's `n` equals the number of long-table rows
whose (level-1, level-2, outcome_type, outcome_name) tuple equals that
aggregate row's tuple. -/
theorem C2_agg_count (rows : List LongRow) (a : AggRow) (ha : a ∈ agg rows) :
    a.n = (rows.filter fun r => keyOf r == keyOfAgg a).length := by
  unfold agg at ha
  obtain ⟨k, _, rfl⟩ := List.mem_map.mp ha
  rfl

/-- The spec's worked example: three long rows for one tuple with
strengths [3, 3, 2.4] and signs [1, 1, 0.5]. -/
def rowsC2 : List LongRow :=
  [⟨"Surveillance systems", "2. Data sharing", "Final Outcomes",
    "Reduced AMR incidence", some 3, some 1⟩,
   ⟨"Surveillance systems", "2. Data sharing", "Final Outcomes",
    "Reduced AMR incidence", some 3, some 1⟩,
   ⟨"Surveillance systems", "2. Data sharing", "Final Outcomes",
    "Reduced AMR incidence", some (12/5), some (1/2)⟩]

/-- The aggregate row those three long rows produce: n = 3,
mean_strength = 2.8, mean_direction = 5/6. -/
def aggRowC2 : AggRow :=
  ⟨"Surveillance systems", "2. Data sharing", "Final Outcomes",
   "Reduced AMR incidence", 3, some (14/5), some (5/6)⟩

/-- C2 witness: the spec example, with its labels. -/
theorem C2_agg_count_witness :
    aggRowC2 ∈ agg rowsC2 ∧
    aggRowC2.n = (rowsC2.filter fun r => keyOf r == keyOfAgg aggRowC2).length ∧
    aggRowC2.n = 3 ∧
    map_strength_label aggRowC2.mean_strength = "high" ∧
    map_direction_label aggRowC2.mean_direction = some "mostly positive" := by
  have hagg : agg rowsC2 = [aggRowC2] := by
    norm_num [agg, firstSeen, firstSeenAux, keyOf, meanOpt, List.filterMap_cons,
      List.sum_cons, rowsC2, aggRowC2]
    simp
  have hm : aggRowC2 ∈ agg rowsC2 := by rw [hagg]; exact List.mem_singleton.mpr rfl
  refine ⟨hm, C2_agg_count rowsC2 aggRowC2 hm, rfl, ?_, ?_⟩
  · norm_num [aggRowC2, map_strength_label]
  · norm_num [aggRowC2, map_direction_label]

/-- C3: the direction-label mapping satisfies: missing maps to "N/A";
1 to "positive"; (0.5, 1) to "mostly positive"; (-0.5, 0.5] to
"inconclusive/mixed"; (-1, -0.5] to "mostly negative"; -1 to "negative";
and any value outside [-1, 1] falls through to no label. -/
theorem C3_direction_label_cases :
    map_direction_label none = some "N/A" ∧
    map_direction_label (some 1) = some "positive" ∧
    (∀ x : ℚ, 1/2 < x → x < 1 → map_direction_label (some x) = some "mostly positive") ∧
    (∀ x : ℚ, -(1/2) < x → x ≤ 1/2 → map_direction_label (some x) = some "inconclusive/mixed") ∧
    (∀ x : ℚ, -1 < x → x ≤ -(1/2) → map_direction_label (some x) = some "mostly negative") ∧
    map_direction_label (some (-1)) = some "negative" ∧
    (∀ x : ℚ, x < -1 ∨ 1 < x → map_direction_label (some x) = none) := by
  refine ⟨rfl, by norm_num [map_direction_label], ?_, ?_, ?_,
    by norm_num [map_direction_label], ?_⟩
  · intro x hl hr
    simp only [map_direction_label]
    rw [if_neg (by linarith : ¬ x = 1), if_pos ⟨hl, hr⟩]
  · intro x hl hr
    simp only [map_direction_label]
    rw [if_neg (by linarith : ¬ x = 1),
      if_neg (fun h => by linarith [h.1] : ¬ (1/2 < x ∧ x < 1)), if_pos ⟨hl, hr⟩]
  · intro x hl hr
    simp only [map_direction_label]
    rw [if_neg (by linarith : ¬ x = 1),
      if_neg (fun h => by linarith [h.1] : ¬ (1/2 < x ∧ x < 1)),
      if_neg (fun h => by linarith [h.1] : ¬ (-(1/2) < x ∧ x ≤ 1/2)), if_pos ⟨hl, hr⟩]
  · intro x hx
    rcases hx with hx | hx
    · simp only [map_direction_label]
      rw [if_neg (by linarith : ¬ x = 1),
        if_neg (fun h => by linarith [h.1] : ¬ (1/2 < x ∧ x < 1)),
        if_neg (fun h => by linarith [h.1] : ¬ (-(1/2) < x ∧ x ≤ 1/2)),
        if_neg (fun h => by linarith [h.1] : ¬ (-1 < x ∧ x ≤ -(1/2))),
        if_neg (by linarith : ¬ x = -1)]
    · simp only [map_direction_label]
      rw [if_neg (by linarith : ¬ x = 1),
        if_neg (fun h => by linarith [h.2] : ¬ (1/2 < x ∧ x < 1)),
        if_neg (fun h => by linarith [h.2] : ¬ (-(1/2) < x ∧ x ≤ 1/2)),
        if_neg (fun h => by linarith [h.2] : ¬ (-1 < x ∧ x ≤ -(1/2))),
        if_neg (by linarith : ¬ x = -1)]

/-- C3 witness: each guarded case of the mapping at a concrete value. -/
theorem C3_direction_label_cases_witness :
    map_direction_label (some (3/4)) = some "mostly positive" ∧
    map_direction_label (some 0) = some "inconclusive/mixed" ∧
    map_direction_label (some (-(3/4))) = some "mostly negative" ∧
    map_direction_label (some 2) = none :=
  ⟨C3_direction_label_cases.2.2.1 (3/4) (by norm_num) (by norm_num),
   C3_direction_label_cases.2.2.2.1 0 (by norm_num) (by norm_num),
   C3_direction_label_cases.2.2.2.2.1 (-(3/4)) (by norm_num) (by norm_num),
   C3_direction_label_cases.2.2.2.2.2.2 2 (Or.inr (by norm_num))⟩

/-- C4: the strength-label mapping is total on non-missing values:
missing maps to "N/A"; [2.6, ∞) to "high"; [2.4, 2.6) to "moderate";
[1.5, 2.4) to "low-moderate"; [1.0, 1.5) to "low"; below 1.0 to
"very low"; the boundary values map as stated. -/
theorem C4_strength_label_cases :
    map_strength_label none = "N/A" ∧
    (∀ x : ℚ, 26/10 ≤ x → map_strength_label (some x) = "high") ∧
    (∀ x : ℚ, 24/10 ≤ x → x < 26/10 → map_strength_label (some x) = "moderate") ∧
    (∀ x : ℚ, 15/10 ≤ x → x < 24/10 → map_strength_label (some x) = "low-moderate") ∧
    (∀ x : ℚ, 1 ≤ x → x < 15/10 → map_strength_label (some x) = "low") ∧
    (∀ x : ℚ, x < 1 → map_strength_label (some x) = "very low") ∧
    map_strength_label (some (26/10)) = "high" ∧
    map_strength_label (some (24/10)) = "moderate" ∧
    map_strength_label (some (15/10)) = "low-moderate" ∧
    map_strength_label (some 1) = "low" := by
  refine ⟨rfl, ?_, ?_, ?_, ?_, ?_, by norm_num [map_strength_label],
    by norm_num [map_strength_label], by norm_num [map_strength_label],
    by norm_num [map_strength_label]⟩
  · intro x h
    simp only [map_strength_label]
    rw [if_pos (by linarith : x ≥ 26/10)]
  · intro x hl hr
    simp only [map_strength_label]
    rw [if_neg (by linarith : ¬ x ≥ 26/10), if_pos (by linarith : x ≥ 24/10)]
  · intro x hl hr
    simp only [map_strength_label]
    rw [if_neg (by linarith : ¬ x ≥ 26/10), if_neg (by linarith : ¬ x ≥ 24/10),
      if_pos (by linarith : x ≥ 15/10)]
  · intro x hl hr
    simp only [map_strength_label]
    rw [if_neg (by linarith : ¬ x ≥ 26/10), if_neg (by linarith : ¬ x ≥ 24/10),
      if_neg (by linarith : ¬ x ≥ 15/10), if_pos (by linarith : x ≥ 1)]
  · intro x h
    simp only [map_strength_label]
    rw [if_neg (by linarith : ¬ x ≥ 26/10), if_neg (by linarith : ¬ x ≥ 24/10),
      if_neg (by linarith : ¬ x ≥ 15/10), if_neg (by linarith : ¬ x ≥ 1)]

/-- C4 witness: each guarded case of the mapping at a concrete value. -/
theorem C4_strength_label_cases_witness :
    map_strength_label (some 3) = "high" ∧
    map_strength_label (some (5/2)) = "moderate" ∧
    map_strength_label (some 2) = "low-moderate" ∧
    map_strength_label (some (6/5)) = "low" ∧
    map_strength_label (some (1/2)) = "very low" :=
  ⟨C4_strength_label_cases.2.1 3 (by norm_num),
   C4_strength_label_cases.2.2.1 (5/2) (by norm_num) (by norm_num),
   C4_strength_label_cases.2.2.2.1 2 (by norm_num) (by norm_num),
   C4_strength_label_cases.2.2.2.2.1 (6/5) (by norm_num) (by norm_num),
   C4_strength_label_cases.2.2.2.2.2.1 (1/2) (by norm_num)⟩

/-- C5: with no click state, or with a clicked key pair where the x key
does not carry the data-column marker or the y key does not carry the
data-row marker, the resolver returns an empty record list and a
non-error prompt message. -/
theorem C5_nondata_inputs (long : List LongRow) :
    show_details long none = some ([], "Click a bubble to see the article list.") ∧
    ∀ xk yk : String,
      ¬(startsWithB COL_PREFIX_X xk = true ∧ startsWithB ROW_PREFIX_Y yk = true) →
      show_details long (some (xk, yk)) =
        some ([], "Select a bubble (row Level 2 × outcome) to see details.") := by
  refine ⟨rfl, ?_⟩
  intro xk yk h
  have hb : (startsWithB COL_PREFIX_X xk && startsWithB ROW_PREFIX_Y yk) = false := by
    rcases Bool.eq_false_or_eq_true (startsWithB COL_PREFIX_X xk) with h1 | h1 <;>
      rcases Bool.eq_false_or_eq_true (startsWithB ROW_PREFIX_Y yk) with h2 | h2 <;>
      simp_all
  simp [show_details, hb]

/-- C5 witness: a click on a pair of header keys. -/
theorem C5_nondata_inputs_witness :
    show_details [] (some (HDR_PREFIX_X ++ "Impact", HDR_PREFIX_Y ++ "Workforce")) =
      some ([], "Select a bubble (row Level 2 × outcome) to see details.") :=
  (C5_nondata_inputs []).2 _ _ (by decide)

/-- C6: when the impact tier's three source columns are not all present,
its contribution is an empty table whose column list equals the
intermediate tier's, and the long-table concatenation still goes through,
made of the intermediate and final rows alone. -/
theorem C6_impact_fallback (df : DF)
    (h : (df.cols.contains COL_IMP_OUT && df.cols.contains COL_IMP_STRENGTH &&
          df.cols.contains COL_IMP_SIGN) = false) :
    (imp_long df).rows = [] ∧ (imp_long df).cols = (int_long df).cols ∧
    (longDF df).rows.length = (int_long df).rows.length + (fin_long df).rows.length := by
  have hif : imp_long df = ⟨(int_long df).cols, []⟩ := by
    unfold imp_long
    rw [h]
    rfl
  refine ⟨by rw [hif], by rw [hif], ?_⟩
  simp [longDF, concatDF, hif]

/-- A source table carrying the intermediate and final tier columns but
none of the impact ones. -/
def dfC6 : DF :=
  ⟨[COL_L1, COL_L2, COL_INT_OUT, COL_INT_STRENGTH, COL_INT_SIGN,
    COL_FIN_OUT, COL_FIN_STRENGTH, COL_FIN_SIGN], []⟩

/-- C6 witness: the fallback on a concrete impact-less table. -/
theorem C6_impact_fallback_witness :
    (imp_long dfC6).rows = [] ∧ (imp_long dfC6).cols = (int_long dfC6).cols ∧
    (longDF dfC6).rows.length = (int_long dfC6).rows.length + (fin_long dfC6).rows.length :=
  C6_impact_fallback dfC6 (by decide)

/-- In a concatenation of an all-`p` block and an all-not-`p` block, every
`p` position comes before every non-`p` position. -/
theorem append_pos_lt {α : Type} (A B : List α) (p : α → Bool)
    (hA : ∀ a ∈ A, p a = true) (hB : ∀ b ∈ B, p b = false)
    (i j : ℕ) (hi : i < (A ++ B).length) (hj : j < (A ++ B).length)
    (hpi : p ((A ++ B)[i]) = true) (hpj : p ((A ++ B)[j]) = false) : i < j := by
  by_contra hcon
  push_neg at hcon
  rcases Nat.lt_or_ge j A.length with hjA | hjA
  · have e : (A ++ B)[j] = A[j] := List.getElem_append_left hjA
    have hmem : A[j] ∈ A := List.getElem_mem hjA
    rw [e, hA _ hmem] at hpj
    simp at hpj
  · have hiA : A.length ≤ i := le_trans hjA hcon
    have hb : i - A.length < B.length := by
      simp only [List.length_append] at hi
      omega
    have e : (A ++ B)[i] = B[i - A.length] := List.getElem_append_right hiA
    have hmem : B[i - A.length] ∈ B := List.getElem_mem hb
    rw [e, hB _ hmem] at hpi
    simp at hpi

/-- C7: in the Y-axis group order every level-1 name starting with
"surveillance" (any case) precedes every name that does not, and each of
the two blocks keeps the aggregate table's first-seen order. -/
theorem C7_surveillance_first (rows : List AggRow) :
    (∀ (i j : ℕ) (hi : i < (unique_l1 rows).length) (hj : j < (unique_l1 rows).length),
        isSurv ((unique_l1 rows)[i]) = true → isSurv ((unique_l1 rows)[j]) = false →
        i < j) ∧
    (unique_l1 rows).filter isSurv = (firstSeen (rows.map AggRow.l1)).filter isSurv ∧
    ((unique_l1 rows).filter fun l => !isSurv l) =
      ((firstSeen (rows.map AggRow.l1)).filter fun l => !isSurv l) := by
  have hr : unique_l1 rows =
      (firstSeen (rows.map AggRow.l1)).filter isSurv ++
        ((firstSeen (rows.map AggRow.l1)).filter fun l => !isSurv l) := rfl
  refine ⟨?_, ?_, ?_⟩
  · intro i j hi hj hpi hpj
    simp only [hr] at hi hj hpi hpj
    exact append_pos_lt _ _ isSurv
      (fun a ha => (List.mem_filter.mp ha).2)
      (fun b hb => by simpa using (List.mem_filter.mp hb).2)
      i j hi hj hpi hpj
  · rw [hr, List.filter_append]
    simp [List.filter_filter]
  · rw [hr, List.filter_append]
    simp [List.filter_filter]

/-- Aggregate rows whose level-1 values arrive in the order
Zoonoses, Surveillance systems. -/
def rowsC7 : List AggRow :=
  [⟨"Zoonoses", "1. A", "t", "n", 1, none, none⟩,
   ⟨"Surveillance systems", "2. B", "t", "n", 1, none, none⟩]

/-- C7 witness: the surveillance capability moves to the front, and the
ordering property is discharged at positions 0 and 1. -/
theorem C7_surveillance_first_witness :
    unique_l1 rowsC7 = ["Surveillance systems", "Zoonoses"] ∧ (0 : ℕ) < 1 :=
  ⟨by decide,
   (C7_surveillance_first rowsC7).1 0 1 (by decide) (by decide) (by decide) (by decide)⟩

/-- C8 (amended): the level-2 sort orders labels ascending by the integer
value of their leading numeric prefix ("10. Workforce" after
"2. Training"); a label with no parseable prefix is keyed by the sentinel
9999 and therefore comes after every label whose numeric prefix is
smaller than 9999 (not after every numerically prefixed label). -/
theorem C8_l2_sort (ls : List String) :
    List.Sorted l2Le (sortL2 ls) ∧
    l2_num_prefix "10. Workforce" = 10 ∧
    l2_num_prefix "2. Training" = 2 ∧
    sortL2 ["10. Workforce", "2. Training"] = ["2. Training", "10. Workforce"] ∧
    (∀ s : String, numPrefix? s.toList = none → l2_num_prefix s = 9999) ∧
    (∀ (i j : ℕ) (hi : i < (sortL2 ls).length) (hj : j < (sortL2 ls).length) (k : ℕ),
        numPrefix? ((sortL2 ls)[i]).toList = some k → k < 9999 →
        numPrefix? ((sortL2 ls)[j]).toList = none → i < j) := by
  have hs : List.Pairwise l2Le (sortL2 ls) := List.sorted_insertionSort l2Le ls
  refine ⟨hs, by decide, by decide, by decide, ?_, ?_⟩
  · intro s h
    unfold l2_num_prefix
    rw [h]
  · intro i j hi hj k hk hklt hnone
    by_contra hcon
    push_neg at hcon
    rcases Nat.eq_or_lt_of_le hcon with heq | hlt
    · subst heq
      rw [hk] at hnone
      simp at hnone
    · have hrel : l2Le ((sortL2 ls)[j]) ((sortL2 ls)[i]) :=
        List.pairwise_iff_getElem.mp hs j i hj hi hlt
      have e1 : l2_num_prefix ((sortL2 ls)[j]) = 9999 := by
        unfold l2_num_prefix
        rw [hnone]
      have e2 : l2_num_prefix ((sortL2 ls)[i]) = k := by
        unfold l2_num_prefix
        rw [hk]
      simp only [l2Le, e1, e2] at hrel
      omega

/-- C8 counterexample to the claim as stated: "10000) A" carries the
numeric prefix 10000, yet the prefix-less label "B" (sentinel 9999)
sorts before it, so a sentinel label does not come after every
numerically prefixed label. -/
theorem C8_l2_sort_cex :
    numPrefix? "10000) A".toList = some 10000 ∧
    l2_num_prefix "B" = 9999 ∧
    sortL2 ["10000) A", "B"] = ["B", "10000) A"] :=
  ⟨by decide, by decide, by decide⟩

/-- C8 witness: the positional property at a concrete sorted list. -/
theorem C8_l2_sort_witness :
    sortL2 ["7) X", "nope"] = ["7) X", "nope"] ∧ (0 : ℕ) < 1 :=
  ⟨by decide,
   (C8_l2_sort ["7) X", "nope"]).2.2.2.2.2 0 1 (by decide) (by decide) 7
     (by decide) (by decide) (by decide)⟩

/-- C9: the marker is configured with sizemode "area" and
sizeref = 2 * max(n) / 48²; consequently the largest count renders at the
48-pixel target diameter (2·max(n)/sizeref = 48²) and any count k maps to
an area share k·48²/(2·max(n)) linear in k. -/
theorem C9_bubble_sizing (rows : List AggRow) :
    (figMarker rows).sizemode = "area" ∧
    (figMarker rows).sizeref = 2 * (max_n rows : ℚ) / 48 ^ 2 ∧
    2 * (max_n rows : ℚ) / sizeref rows = 48 ^ 2 ∧
    ∀ k : ℕ, (k : ℚ) / sizeref rows = (k : ℚ) * 48 ^ 2 / (2 * (max_n rows : ℚ)) := by
  have h1 : (1 : ℕ) ≤ max_n rows := le_max_left 1 _
  have hpos : (0 : ℚ) < (max_n rows : ℚ) := by
    exact_mod_cast Nat.lt_of_lt_of_le Nat.zero_lt_one h1
  have hne : (max_n rows : ℚ) ≠ 0 := ne_of_gt hpos
  have hsz : sizeref rows = 2 * (max_n rows : ℚ) / 48 ^ 2 := rfl
  refine ⟨rfl, hsz, ?_, ?_⟩
  · rw [hsz]
    field_simp
  · intro k
    rw [hsz]
    field_simp

/-- C10: on a clicked data bubble whose keys parse to
(outcome_type, outcome_name) and (level-1, level-2), the resolver returns
exactly the long-table rows matching those four fields, and the title
embeds the length of that record list as its article count. -/
theorem C10_detail_title_count (long : List LongRow) (xk yk t nm l1 l2 : String)
    (hx : startsWithB COL_PREFIX_X xk = true)
    (hy : startsWithB ROW_PREFIX_Y yk = true)
    (hpx : parse_x xk = some (t, nm))
    (hpy : parse_y yk = some (l1, l2)) :
    show_details long (some (xk, yk)) =
      some (long.filter (matchesKeys l1 l2 t nm),
        detailTitle t nm l1 l2 (long.filter (matchesKeys l1 l2 t nm)).length) := by
  simp [show_details, hx, hy, hpx, hpy]

/-- A long table with two rows matching the clicked bubble and one row
that does not. -/
def rowsC10 : List LongRow :=
  [⟨"Surveillance systems", "2. Data sharing", "Final Outcomes",
    "Reduced AMR incidence", none, none⟩,
   ⟨"Surveillance systems", "2. Data sharing", "Final Outcomes",
    "Reduced AMR incidence", none, none⟩,
   ⟨"Lab systems", "1. Capacity", "Impact", "AMR burden", none, none⟩]

/-- C10 witness: a concrete click returning its two matching records and
a title counting 2 articles. -/
theorem C10_detail_title_count_witness :
    show_details rowsC10
        (some (x_key "Final Outcomes" "Reduced AMR incidence",
               y_key "Surveillance systems" "2. Data sharing")) =
      some ([⟨"Surveillance systems", "2. Data sharing", "Final Outcomes",
              "Reduced AMR incidence", none, none⟩,
             ⟨"Surveillance systems", "2. Data sharing", "Final Outcomes",
              "Reduced AMR incidence", none, none⟩],
        detailTitle "Final Outcomes" "Reduced AMR incidence"
          "Surveillance systems" "2. Data sharing" 2) := by
  have h := C10_detail_title_count rowsC10
    (x_key "Final Outcomes" "Reduced AMR incidence")
    (y_key "Surveillance systems" "2. Data sharing")
    "Final Outcomes" "Reduced AMR incidence" "Surveillance systems" "2. Data sharing"
    (by decide) (by decide) (by decide) (by decide)
  rw [h]
  decide

end AppOpcion2
